import Mathlib

/-!
Shallow embedding of the RFV segmentation core of `tarefa_mod31.py`.

Conventions of the embedding:
* A pandas float cell is `Option ℚ`: `none` models NaN (and NaN obtained from
  NaT arithmetic).  Python comparisons involving NaN are `False`.
* A calendar timestamp is an integer day number; the computation instant
  `dia_atual` is an integer day as well, so `(dia_atual - d).dt.days` is the
  exact integer difference.
* The uploaded table after `pd.to_datetime(df['DiaCompra'], errors='coerce')`
  is a list of typed rows; a raw date that failed to parse is `dia = none`
  (NaT).  `ID_cliente` and `CodigoCompra` are opaque keys modelled as `Nat`,
  `ValorTotal` as `ℚ`.
* `groupby` produces one entry per distinct key.  pandas sorts group keys;
  every property proved below is independent of the key order, and the
  concrete tables used list customers in ascending id order, so first-occurrence
  deduplication agrees with pandas on them.
-/

namespace RFV

/-- A pandas float cell: `none` models NaN. -/
abbrev Val := Option ℚ

/-- Python `<=` on float cells: any comparison involving NaN is `False`. -/
def vle : Val → Val → Bool
  | some a, some b => a ≤ b
  | _, _ => false

/-- One quartile triple `{0.25: _, 0.50: _, 0.75: _}` of `q_dict`. -/
structure Quartiles where
  q25 : Val
  q50 : Val
  q75 : Val
deriving DecidableEq

/-- The metric name used to index `q_dict` in `freq_val_class`. -/
inductive Metric
  | Frequencia
  | Valor
deriving DecidableEq

/-- The dictionary `q_dict` built from the three quantile columns. -/
structure QDict where
  Recencia : Quartiles
  Frequencia : Quartiles
  Valor : Quartiles
deriving DecidableEq

/-- Indexing `q_dict[fv]` for the frequency/value classifier. -/
def QDict.get (q : QDict) : Metric → Quartiles
  | .Frequencia => q.Frequencia
  | .Valor => q.Valor

/-- Source function `recencia_class(x, q_dict)`: lower is better. -/
def recencia_class (x : Val) (q : QDict) : Char :=
  if vle x q.Recencia.q25 then 'A'
  else if vle x q.Recencia.q50 then 'B'
  else if vle x q.Recencia.q75 then 'C'
  else 'D'

/-- Source function `freq_val_class(x, fv, q_dict)`: higher is better. -/
def freq_val_class (x : Val) (fv : Metric) (q : QDict) : Char :=
  if vle x (q.get fv).q25 then 'D'
  else if vle x (q.get fv).q50 then 'C'
  else if vle x (q.get fv).q75 then 'B'
  else 'A'

/-- One row of `df_compras` after the `to_datetime` coercion of `DiaCompra`. -/
structure Row where
  id : Nat
  dia : Option Int
  codigo : Nat
  valor : ℚ
deriving DecidableEq

/-- The distinct customer identifiers, the group keys of every `groupby`. -/
def keys (df : List Row) : List Nat :=
  (df.map Row.id).dedup

/-- The rows of one customer (one `groupby` group). -/
def rowsOf (df : List Row) (c : Nat) : List Row :=
  df.filter (fun r => r.id = c)

/-- Group aggregate `['DiaCompra'].max()`: pandas max skips NaT and yields NaT
when every date of the group is NaT. -/
def maxDia (rs : List Row) : Option Int :=
  (rs.filterMap Row.dia).max?

/-- Per-customer `(dia_atual - DiaUltimaCompra).dt.days`: NaN when the
last-purchase date is NaT. -/
def recenciaOf (now : Int) (df : List Row) (c : Nat) : Val :=
  match maxDia (rowsOf df c) with
  | some d => some ((now - d : Int) : ℚ)
  | none => none

/-- Per-customer `groupby('ID_cliente').CodigoCompra.nunique()`. -/
def frequenciaOf (df : List Row) (c : Nat) : Nat :=
  ((rowsOf df c).map Row.codigo).dedup.length

/-- Per-customer `groupby('ID_cliente').ValorTotal.sum()`. -/
def valorOf (df : List Row) (c : Nat) : ℚ :=
  ((rowsOf df c).map Row.valor).sum

/-- Aggregate `df_recencia`: columns `ID_cliente`, `DiaUltimaCompra`, `Recencia`. -/
def df_recencia (now : Int) (df : List Row) : List (Nat × Option Int × Val) :=
  (keys df).map (fun c => (c, maxDia (rowsOf df c), recenciaOf now df c))

/-- Aggregate `df_frequencia`: columns `ID_cliente`, `Frequencia`. -/
def df_frequencia (df : List Row) : List (Nat × Nat) :=
  (keys df).map (fun c => (c, frequenciaOf df c))

/-- Aggregate `df_valor`: columns `ID_cliente`, `Valor`. -/
def df_valor (df : List Row) : List (Nat × ℚ) :=
  (keys df).map (fun c => (c, valorOf df c))

/-- One row of the merged table `df_rfv`. -/
structure RfvRow where
  id : Nat
  DiaUltimaCompra : Option Int
  Recencia : Val
  Frequencia : Nat
  Valor : ℚ
deriving DecidableEq

/-- The double `merge(..., on='ID_cliente')` of the source, pandas default
`how='inner'`: a recency row survives only when its customer id is found in
both `df_frequencia` and `df_valor`. -/
def df_rfv (now : Int) (df : List Row) : List RfvRow :=
  (df_recencia now df).filterMap (fun x =>
    match (df_frequencia df).lookup x.1, (df_valor df).lookup x.1 with
    | some f, some v => some ⟨x.1, x.2.1, x.2.2, f, v⟩
    | _, _ => none)

/-- The `R` label column. -/
def rfvR (q : QDict) (r : RfvRow) : Char :=
  recencia_class r.Recencia q

/-- The `F` label column; the distinct-order count is never NaN. -/
def rfvF (q : QDict) (r : RfvRow) : Char :=
  freq_val_class (some (r.Frequencia : ℚ)) Metric.Frequencia q

/-- The `V` label column; the amount sum is never NaN here. -/
def rfvV (q : QDict) (r : RfvRow) : Char :=
  freq_val_class (some r.Valor) Metric.Valor q

/-- Code column `df_rfv['RFV'] = df_rfv['R'] + df_rfv['F'] + df_rfv['V']`. -/
def rfvCode (q : QDict) (r : RfvRow) : String :=
  String.mk [rfvR q r, rfvF q r, rfvV q r]

/-- The hardcoded marketing-action dictionary `action_dict`. -/
def action_dict : List (String × String) :=
  [("AAA", "Clientes VIP: foco em retenção e programas de fidelidade"),
   ("AAB", "Clientes importantes: mantenha o relacionamento ativo"),
   ("ABB", "Clientes em crescimento: ofereça incentivos"),
   ("BBB", "Clientes comuns: monitore e ofereça promoções"),
   ("BBC", "Clientes em recuperação: crie campanhas de reativação"),
   ("CCC", "Clientes de risco: considere reativação ou incentivo"),
   ("CCD", "Clientes inativos: campanhas de reativação específicas"),
   ("DDD", "Clientes perdidos: análise de feedback e retenção")]

/-- Lookup `df_rfv['RFV'].map(action_dict)`: `none` (NaN) for a code outside the
dictionary, the behaviour `action_dict.get(code, 'Ação não encontrada')`
surfaces as an explicit not-found message. -/
def lookupAction (code : String) : Option String :=
  action_dict.lookup code

/-- The four class labels. -/
def labels : List Char := ['A', 'B', 'C', 'D']

/-- All 64 three-letter codes over `{A, B, C, D}`. -/
def allCodes : List String :=
  labels.flatMap (fun a => labels.flatMap (fun b => labels.map (fun c => String.mk [a, b, c])))

/-- The uploaded file as pandas sees it: which of the required columns exist,
and the typed cell contents when they all do. -/
structure RawTable where
  hasID : Bool
  hasDia : Bool
  hasCodigo : Bool
  hasValor : Bool
  rows : List Row

/-- The message `st.error` shows when a column access raises `KeyError`. -/
def keyErrorMsg (cname : String) : String :=
  "Ocorreu um erro ao processar o arquivo: " ++ cname

/-- The body of `main` guarded by its `try/except`: accessing a missing column
raises `KeyError`, caught by the top-level handler which reports a message and
renders no output table.  Columns are checked in the order the source first
accesses them (lines 76, 81, 89, 93). -/
def processFile (now : Int) (t : RawTable) : Except String (List RfvRow) :=
  if !t.hasDia then .error (keyErrorMsg "DiaCompra")
  else if !t.hasID then .error (keyErrorMsg "ID_cliente")
  else if !t.hasCodigo then .error (keyErrorMsg "CodigoCompra")
  else if !t.hasValor then .error (keyErrorMsg "ValorTotal")
  else .ok (df_rfv now t.rows)

/-! Helper lemmas shared by the claim theorems. -/

/-- Comparing a NaN cell on the left is always `False`, as in Python. -/
lemma vle_none_left (y : Val) : vle none y = false := by
  cases y <;> rfl

/-- Comparing two real cells is the rational comparison. -/
lemma vle_some_some (a b : ℚ) : vle (some a) (some b) = decide (a ≤ b) := rfl

/-- Looking a key up in an association list built by tabulating `f` over a key
list returns `f` at that key, whenever the key occurs. -/
lemma lookup_map_key {β : Type} (f : Nat → β) (c : Nat) :
    ∀ l : List Nat, c ∈ l → (l.map fun k => (k, f k)).lookup c = some (f c) := by
  intro l hl
  induction l with
  | nil => cases hl
  | cons a t ih =>
    rcases eq_or_ne c a with rfl | hne
    · simp [List.lookup]
    · have hc : c ∈ t := by
        rcases List.mem_cons.mp hl with h | h
        · exact absurd h hne
        · exact h
      have hba : (c == a) = false := beq_eq_false_iff_ne.mpr hne
      simp [List.lookup, hba, ih hc]

/-- The row `df_rfv` builds from a triple of the recency aggregate. -/
def mergeRow (df : List Row) (x : Nat × Option Int × Val) : Option RfvRow :=
  match (df_frequencia df).lookup x.1, (df_valor df).lookup x.1 with
  | some f, some v => some ⟨x.1, x.2.1, x.2.2, f, v⟩
  | _, _ => none

/-- The merge construction unfolded through `mergeRow`. -/
lemma df_rfv_def (now : Int) (df : List Row) :
    df_rfv now df = (df_recencia now df).filterMap (mergeRow df) := rfl

/-- The tabulated row of one customer over all five columns. -/
def fullRow (now : Int) (df : List Row) (c : Nat) : RfvRow :=
  ⟨c, maxDia (rowsOf df c), recenciaOf now df c, frequenciaOf df c, valorOf df c⟩

/-- Over a key sublist of `keys df`, every `mergeRow` lookup succeeds. -/
lemma filterMap_mergeRow (now : Int) (df : List Row) :
    ∀ l : List Nat, (∀ c ∈ l, c ∈ keys df) →
      ((l.map fun c => (c, maxDia (rowsOf df c), recenciaOf now df c)).filterMap
        (mergeRow df)) = l.map (fullRow now df) := by
  intro l hl
  induction l with
  | nil => rfl
  | cons a t ih =>
    have ha : a ∈ keys df := hl a (List.mem_cons_self a t)
    have h1 : (df_frequencia df).lookup a = some (frequenciaOf df a) :=
      lookup_map_key (frequenciaOf df) a (keys df) ha
    have h2 : (df_valor df).lookup a = some (valorOf df a) :=
      lookup_map_key (valorOf df) a (keys df) ha
    have hhead : mergeRow df (a, maxDia (rowsOf df a), recenciaOf now df a) =
        some (fullRow now df a) := by
      simp [mergeRow, h1, h2, fullRow]
    simp only [List.map_cons, List.filterMap_cons, hhead,
      ih (fun c hc => hl c (List.mem_cons_of_mem a hc))]

/-- The inner merge never loses a key: each of the three aggregates tabulates
the same key list `keys df`, so every lookup succeeds and `df_rfv` is the
tabulation of all five columns over the distinct customers. -/
lemma df_rfv_eq_map (now : Int) (df : List Row) :
    df_rfv now df = (keys df).map (fullRow now df) := by
  rw [df_rfv_def]
  unfold df_recencia
  exact filterMap_mergeRow now df (keys df) (fun c hc => hc)

/-- Region-by-region characterisation of `recencia_class` on real inputs with
sorted thresholds. -/
lemma recencia_class_eq_iff (q : QDict) (x p25 p50 p75 : ℚ)
    (hq : q.Recencia = ⟨some p25, some p50, some p75⟩)
    (h12 : p25 ≤ p50) (h23 : p50 ≤ p75) :
    (recencia_class (some x) q = 'A' ↔ x ≤ p25) ∧
    (recencia_class (some x) q = 'B' ↔ p25 < x ∧ x ≤ p50) ∧
    (recencia_class (some x) q = 'C' ↔ p50 < x ∧ x ≤ p75) ∧
    (recencia_class (some x) q = 'D' ↔ p75 < x) := by
  rcases le_or_lt x p25 with hA | hA
  · have hval : recencia_class (some x) q = 'A' := by
      simp [recencia_class, hq, vle, hA]
    rw [hval]
    refine ⟨by simpa using hA, ?_, ?_, ?_⟩ <;> simp <;> try intros <;> linarith
  rcases le_or_lt x p50 with hB | hB
  · have hval : recencia_class (some x) q = 'B' := by
      simp [recencia_class, hq, vle, hB, not_le.mpr hA]
    rw [hval]
    refine ⟨by simp; try intros; linarith, by simpa using ⟨hA, hB⟩, ?_, ?_⟩ <;>
      simp <;> intros <;> linarith
  rcases le_or_lt x p75 with hC | hC
  · have hval : recencia_class (some x) q = 'C' := by
      simp [recencia_class, hq, vle, hC, not_le.mpr hA, not_le.mpr hB]
    rw [hval]
    refine ⟨by simp; try intros; linarith, by simp; try intros; linarith,
      by simpa using ⟨hB, hC⟩, by simp; try intros; linarith⟩
  · have hval : recencia_class (some x) q = 'D' := by
      simp [recencia_class, hq, vle, not_le.mpr hA, not_le.mpr hB, not_le.mpr hC]
    rw [hval]
    refine ⟨by simp; try intros; linarith, by simp; try intros; linarith,
      by simp; try intros; linarith, by simpa using hC⟩

/-- Region-by-region characterisation of `freq_val_class` on real inputs with
sorted thresholds. -/
lemma freq_val_class_eq_iff (q : QDict) (fv : Metric) (x u25 u50 u75 : ℚ)
    (hq : q.get fv = ⟨some u25, some u50, some u75⟩)
    (g12 : u25 ≤ u50) (g23 : u50 ≤ u75) :
    (freq_val_class (some x) fv q = 'D' ↔ x ≤ u25) ∧
    (freq_val_class (some x) fv q = 'C' ↔ u25 < x ∧ x ≤ u50) ∧
    (freq_val_class (some x) fv q = 'B' ↔ u50 < x ∧ x ≤ u75) ∧
    (freq_val_class (some x) fv q = 'A' ↔ u75 < x) := by
  rcases le_or_lt x u25 with hA | hA
  · have hval : freq_val_class (some x) fv q = 'D' := by
      simp [freq_val_class, hq, vle, hA]
    rw [hval]
    refine ⟨by simpa using hA, ?_, ?_, ?_⟩ <;> simp <;> try intros <;> linarith
  rcases le_or_lt x u50 with hB | hB
  · have hval : freq_val_class (some x) fv q = 'C' := by
      simp [freq_val_class, hq, vle, hB, not_le.mpr hA]
    rw [hval]
    refine ⟨by simp; try intros; linarith, by simpa using ⟨hA, hB⟩, ?_, ?_⟩ <;>
      simp <;> intros <;> linarith
  rcases le_or_lt x u75 with hC | hC
  · have hval : freq_val_class (some x) fv q = 'B' := by
      simp [freq_val_class, hq, vle, hC, not_le.mpr hA, not_le.mpr hB]
    rw [hval]
    refine ⟨by simp; try intros; linarith, by simp; try intros; linarith,
      by simpa using ⟨hB, hC⟩, by simp; try intros; linarith⟩
  · have hval : freq_val_class (some x) fv q = 'A' := by
      simp [freq_val_class, hq, vle, not_le.mpr hA, not_le.mpr hB, not_le.mpr hC]
    rw [hval]
    refine ⟨by simp; try intros; linarith, by simp; try intros; linarith,
      by simp; try intros; linarith, by simpa using hC⟩

/-- A concrete quartile dictionary used by the witnesses. -/
def qd0 : QDict :=
  ⟨⟨some 1, some 2, some 3⟩, ⟨some 1, some 2, some 3⟩, ⟨some 1, some 2, some 3⟩⟩

/-- C1: for every recency value x and sorted threshold triple (p25, p50, p75),
`recencia_class` returns A when x ≤ p25, B when p25 < x ≤ p50, C when
p50 < x ≤ p75 and D otherwise; each boundary is inclusive on the lower side, so
a value exactly at a threshold goes to the better (earlier-letter) class. -/
theorem recencia_class_spec (q : QDict) (x p25 p50 p75 : ℚ)
    (hq : q.Recencia = ⟨some p25, some p50, some p75⟩)
    (h12 : p25 ≤ p50) (h23 : p50 ≤ p75) :
    (x ≤ p25 → recencia_class (some x) q = 'A') ∧
    (p25 < x → x ≤ p50 → recencia_class (some x) q = 'B') ∧
    (p50 < x → x ≤ p75 → recencia_class (some x) q = 'C') ∧
    (p75 < x → recencia_class (some x) q = 'D') := by
  obtain ⟨hA, hB, hC, hD⟩ := recencia_class_eq_iff q x p25 p50 p75 hq h12 h23
  exact ⟨fun h => hA.mpr h, fun h1 h2 => hB.mpr ⟨h1, h2⟩,
    fun h1 h2 => hC.mpr ⟨h1, h2⟩, fun h => hD.mpr h⟩

/-- Witness for C1: at thresholds (1, 2, 3) the value 2, exactly at the median,
is classified B, and the value 1, exactly at p25, is classified A. -/
theorem recencia_class_spec_witness :
    recencia_class (some 2) qd0 = 'B' ∧ recencia_class (some 1) qd0 = 'A' :=
  ⟨(recencia_class_spec qd0 2 1 2 3 rfl (by norm_num) (by norm_num)).2.1
      (by norm_num) (by norm_num),
   (recencia_class_spec qd0 1 1 2 3 rfl (by norm_num) (by norm_num)).1
      (by norm_num)⟩

/-- C2: for every frequency or value metric x and sorted threshold triple,
`freq_val_class` returns D when x ≤ p25, C when p25 < x ≤ p50, B when
p50 < x ≤ p75 and A otherwise; a value exactly at p25 lands in D, the worst
bucket. -/
theorem freq_val_class_spec (q : QDict) (fv : Metric) (x u25 u50 u75 : ℚ)
    (hq : q.get fv = ⟨some u25, some u50, some u75⟩)
    (g12 : u25 ≤ u50) (g23 : u50 ≤ u75) :
    (x ≤ u25 → freq_val_class (some x) fv q = 'D') ∧
    (u25 < x → x ≤ u50 → freq_val_class (some x) fv q = 'C') ∧
    (u50 < x → x ≤ u75 → freq_val_class (some x) fv q = 'B') ∧
    (u75 < x → freq_val_class (some x) fv q = 'A') := by
  obtain ⟨hD, hC, hB, hA⟩ := freq_val_class_eq_iff q fv x u25 u50 u75 hq g12 g23
  exact ⟨fun h => hD.mpr h, fun h1 h2 => hC.mpr ⟨h1, h2⟩,
    fun h1 h2 => hB.mpr ⟨h1, h2⟩, fun h => hA.mpr h⟩

/-- Witness for C2: at thresholds (1, 2, 3) a frequency of exactly 1 = p25 is
classified D, and a frequency of 4 is classified A. -/
theorem freq_val_class_spec_witness :
    freq_val_class (some 1) Metric.Frequencia qd0 = 'D' ∧
    freq_val_class (some 4) Metric.Valor qd0 = 'A' :=
  ⟨(freq_val_class_spec qd0 Metric.Frequencia 1 1 2 3 rfl (by norm_num)
      (by norm_num)).1 (by norm_num),
   (freq_val_class_spec qd0 Metric.Valor 4 1 2 3 rfl (by norm_num)
      (by norm_num)).2.2.2 (by norm_num)⟩

/-- Each classifier only ever produces one of the four labels, NaN included. -/
lemma recencia_class_mem_labels (x : Val) (q : QDict) :
    recencia_class x q ∈ labels := by
  unfold recencia_class labels
  split_ifs <;> simp

/-- Each classifier only ever produces one of the four labels, NaN included. -/
lemma freq_val_class_mem_labels (x : Val) (fv : Metric) (q : QDict) :
    freq_val_class x fv q ∈ labels := by
  unfold freq_val_class labels
  split_ifs <;> simp

/-- C7: with sorted thresholds both classifiers are total over the rationals
and their four buckets are contiguous, cover every value, and do not overlap:
each label is returned exactly on its own interval. -/
theorem classify_partition (q : QDict) (fv : Metric) (x p25 p50 p75 u25 u50 u75 : ℚ)
    (hr : q.Recencia = ⟨some p25, some p50, some p75⟩)
    (h12 : p25 ≤ p50) (h23 : p50 ≤ p75)
    (hu : q.get fv = ⟨some u25, some u50, some u75⟩)
    (g12 : u25 ≤ u50) (g23 : u50 ≤ u75) :
    (recencia_class (some x) q ∈ labels ∧ freq_val_class (some x) fv q ∈ labels) ∧
    (recencia_class (some x) q = 'A' ↔ x ≤ p25) ∧
    (recencia_class (some x) q = 'B' ↔ p25 < x ∧ x ≤ p50) ∧
    (recencia_class (some x) q = 'C' ↔ p50 < x ∧ x ≤ p75) ∧
    (recencia_class (some x) q = 'D' ↔ p75 < x) ∧
    (freq_val_class (some x) fv q = 'D' ↔ x ≤ u25) ∧
    (freq_val_class (some x) fv q = 'C' ↔ u25 < x ∧ x ≤ u50) ∧
    (freq_val_class (some x) fv q = 'B' ↔ u50 < x ∧ x ≤ u75) ∧
    (freq_val_class (some x) fv q = 'A' ↔ u75 < x) := by
  obtain ⟨rA, rB, rC, rD⟩ := recencia_class_eq_iff q x p25 p50 p75 hr h12 h23
  obtain ⟨fD, fC, fB, fA⟩ := freq_val_class_eq_iff q fv x u25 u50 u75 hu g12 g23
  exact ⟨⟨recencia_class_mem_labels _ q, freq_val_class_mem_labels _ fv q⟩,
    rA, rB, rC, rD, fD, fC, fB, fA⟩

/-- Witness for C7: at thresholds (1, 2, 3) the value 5/2 sits in the third
bucket of both classifiers. -/
theorem classify_partition_witness :
    recencia_class (some (5/2)) qd0 = 'C' ∧
    freq_val_class (some (5/2)) Metric.Valor qd0 = 'B' := by
  obtain ⟨_, _, _, hC, _, _, _, hB, _⟩ :=
    classify_partition qd0 Metric.Valor (5/2) 1 2 3 1 2 3 rfl (by norm_num)
      (by norm_num) rfl (by norm_num) (by norm_num)
  exact ⟨hC.mpr ⟨by norm_num, by norm_num⟩, hB.mpr ⟨by norm_num, by norm_num⟩⟩

/-- C10: `recencia_class` is total on a missing (NaN) recency: all three
threshold comparisons are false, so it returns D, and a customer whose recency
is missing still receives a complete three-letter RFV code whose R label is the
well-formed letter D. -/
theorem recencia_class_nan_total (q : QDict) (r : RfvRow)
    (h : r.Recencia = none) :
    recencia_class r.Recencia q = 'D' ∧
    (rfvCode q r).length = 3 ∧
    (rfvCode q r).data.head? = some 'D' := by
  have hd : recencia_class r.Recencia q = 'D' := by
    rw [h]
    unfold recencia_class
    simp [vle_none_left]
  refine ⟨hd, ?_, ?_⟩
  · rfl
  · show (rfvCode q r).data.head? = some 'D'
    simp [rfvCode, rfvR, hd]

/-- Witness for C10: a concrete customer row whose recency is NaN. -/
theorem recencia_class_nan_total_witness :
    recencia_class (RfvRow.Recencia ⟨7, none, none, 2, 50⟩) qd0 = 'D' ∧
    (rfvCode qd0 ⟨7, none, none, 2, 50⟩).length = 3 ∧
    (rfvCode qd0 ⟨7, none, none, 2, 50⟩).data.head? = some 'D' :=
  recencia_class_nan_total qd0 ⟨7, none, none, 2, 50⟩ rfl

/-- C5: the action lookup is total over the 64 three-letter codes on
{A, B, C, D}: each of the 8 curated codes maps to its fixed action string,
AAA in particular to the VIP retention string, and each of the remaining 56
codes yields an explicit not-found result (`none`), never an error. -/
theorem lookupAction_total :
    lookupAction "AAA" =
      some "Clientes VIP: foco em retenção e programas de fidelidade" ∧
    lookupAction "ABD" = none ∧
    allCodes.length = 64 ∧
    (action_dict.all fun p => lookupAction p.1 == some p.2) = true ∧
    (allCodes.filter (fun c => (lookupAction c).isNone)).length = 56 ∧
    (allCodes.all fun c =>
      (lookupAction c).isSome == (action_dict.map Prod.fst).contains c) = true := by
  refine ⟨rfl, rfl, rfl, ?_, ?_, ?_⟩ <;> decide

/-- The scenario table of the spec: customer 1 buys orders 101 and 102 on
2024-01-01 (day 0) and 2024-01-10 (day 9) for 100 and 50, customer 2 buys
order 103 on 2024-01-05 (day 4) for 200; "now" 2024-02-01 is day 31. -/
def dfScenario : List Row :=
  [⟨1, some 0, 101, 100⟩, ⟨1, some 9, 102, 50⟩, ⟨2, some 4, 103, 200⟩]

/-- C6: on the scenario table with reference instant 2024-02-01 the pipeline
yields exactly two customer rows, customer 1 with Recency 22, Frequency 2 and
Value 150, and customer 2 with Recency 27, Frequency 1 and Value 200. -/
theorem scenario_aggregates :
    df_rfv 31 dfScenario =
      [⟨1, some 9, some 22, 2, 150⟩, ⟨2, some 4, some 27, 1, 200⟩] := by
  norm_num [df_rfv, df_recencia, df_frequencia, df_valor, keys, rowsOf, maxDia,
    recenciaOf, frequenciaOf, valorOf, dfScenario, List.lookup, List.dedup,
    List.max?, List.filterMap]
  all_goals decide

/-- A table on which customer 2's purchase dates all failed to parse. -/
def dfNull : List Row :=
  [⟨1, some 0, 10, 100⟩, ⟨2, none, 11, 50⟩, ⟨2, none, 12, 25⟩]

/-- Counterexample to C3: every date of customer 2 is null after coercion, yet
customer 2 appears in the final joined table, with a null Recency; nothing is
dropped by the inner join. -/
theorem allnull_customer_retained :
    (rowsOf dfNull 2).map Row.dia = [none, none] ∧
    (df_rfv 31 dfNull).map RfvRow.id = [1, 2] ∧
    (df_rfv 31 dfNull).map RfvRow.Recencia = [some 31, none] := by
  refine ⟨by decide, ?_, ?_⟩ <;>
  · norm_num [df_rfv, df_recencia, df_frequencia, df_valor, keys, rowsOf,
      maxDia, recenciaOf, frequenciaOf, valorOf, dfNull, List.lookup,
      List.dedup, List.max?, List.filterMap]
    all_goals decide

/-- C3 amended: the three aggregates are combined by inner join on the
customer identifier, but that join drops nobody: all three group-bys tabulate
the same distinct-customer key set (a customer with only unparsable dates stays
in the recency aggregate with a null last date), so the final table holds
exactly the distinct customers of the input. -/
theorem df_rfv_ids_eq_keys (now : Int) (df : List Row) :
    (df_rfv now df).map RfvRow.id = keys df := by
  rw [df_rfv_eq_map, List.map_map]
  have hcomp : RfvRow.id ∘ fullRow now df = fun c => c := rfl
  rw [hcomp]
  simp

/-- A one-customer table whose three rows carry a duplicated order id 7. -/
def dfDup : List Row :=
  [⟨1, some 0, 7, 10⟩, ⟨1, some 1, 7, 20⟩, ⟨1, some 2, 8, 30⟩]

/-- C4: the Frequency aggregate of every customer of the final table counts
distinct purchase-order identifiers, not transaction rows; on `dfDup`, whose
customer has 3 rows but only the 2 distinct orders 7 and 8, the pipeline
reports Frequency 2 while the row count is 3. -/
theorem frequency_counts_distinct_orders :
    (∀ (now : Int) (df : List Row), ∀ r ∈ df_rfv now df,
      r.Frequencia = ((rowsOf df r.id).map Row.codigo).dedup.length) ∧
    ((df_rfv 31 dfDup).map RfvRow.Frequencia = [2] ∧
      (rowsOf dfDup 1).length = 3) := by
  constructor
  · intro now df r hr
    rw [df_rfv_eq_map] at hr
    obtain ⟨c, hc, rfl⟩ := List.mem_map.mp hr
    rfl
  · constructor
    · norm_num [df_rfv, df_recencia, df_frequencia, df_valor, keys, rowsOf,
        maxDia, recenciaOf, frequenciaOf, valorOf, dfDup, List.lookup,
        List.dedup, List.max?, List.filterMap]
    · decide

/-- Witness for C4: the theorem applied to the concrete row of `dfDup`. -/
theorem frequency_counts_distinct_orders_witness :
    (⟨1, some 2, some 29, 2, 60⟩ : RfvRow).Frequencia =
      ((rowsOf dfDup (⟨1, some 2, some 29, 2, 60⟩ : RfvRow).id).map
        Row.codigo).dedup.length := by
  have hmem : (⟨1, some 2, some 29, 2, 60⟩ : RfvRow) ∈ df_rfv 31 dfDup := by
    have hlist : df_rfv 31 dfDup = [⟨1, some 2, some 29, 2, 60⟩] := by
      norm_num [df_rfv, df_recencia, df_frequencia, df_valor, keys, rowsOf,
        maxDia, recenciaOf, frequenciaOf, valorOf, dfDup, List.lookup,
        List.dedup, List.max?, List.filterMap]
    rw [hlist]
    exact List.mem_singleton.mpr rfl
  exact frequency_counts_distinct_orders.1 31 dfDup _ hmem

/-- A table whose only purchase date (day 5) lies after the reference
instant (day 0). -/
def dfFuture : List Row := [⟨1, some 5, 1, 10⟩]

/-- Counterexample to C8: customer 1 of `dfFuture` has a valid (parseable)
last-purchase date, day 5, yet with computation instant day 0 the pipeline
reports Recency -5, which is negative. -/
theorem recency_negative_on_future_date :
    maxDia (rowsOf dfFuture 1) = some 5 ∧
    (df_rfv 0 dfFuture).map RfvRow.Recencia = [some (-5)] ∧
    ¬ (0 : ℚ) ≤ -5 := by
  refine ⟨by decide, ?_, by norm_num⟩
  norm_num [df_rfv, df_recencia, df_frequencia, df_valor, keys, rowsOf, maxDia,
    recenciaOf, frequenciaOf, valorOf, dfFuture, List.lookup, List.dedup,
    List.max?, List.filterMap]

/-- C8 amended: for every customer of the final table whose maximum valid
purchase date exists and does not lie after the computation instant, the
computed Recency is defined and non-negative. -/
theorem recency_nonneg_of_past_date (now : Int) (df : List Row) (r : RfvRow)
    (hr : r ∈ df_rfv now df) (d : Int) (hd : maxDia (rowsOf df r.id) = some d)
    (hpast : d ≤ now) :
    ∃ x : ℚ, r.Recencia = some x ∧ 0 ≤ x := by
  rw [df_rfv_eq_map] at hr
  obtain ⟨c, hc, rfl⟩ := List.mem_map.mp hr
  simp only [fullRow] at hd ⊢
  refine ⟨((now - d : Int) : ℚ), ?_, ?_⟩
  · simp [recenciaOf, hd]
  · have hz : (0 : Int) ≤ now - d := by omega
    exact_mod_cast hz

/-- Witness for C8 amended: customer 1 of the scenario table. -/
theorem recency_nonneg_of_past_date_witness :
    ∃ x : ℚ, (⟨1, some 9, some 22, 2, 150⟩ : RfvRow).Recencia = some x ∧
      0 ≤ x := by
  have hmem : (⟨1, some 9, some 22, 2, 150⟩ : RfvRow) ∈ df_rfv 31 dfScenario := by
    have hlist : df_rfv 31 dfScenario =
        [⟨1, some 9, some 22, 2, 150⟩, ⟨2, some 4, some 27, 1, 200⟩] := by
      norm_num [df_rfv, df_recencia, df_frequencia, df_valor, keys, rowsOf,
        maxDia, recenciaOf, frequenciaOf, valorOf, dfScenario, List.lookup,
        List.dedup, List.max?, List.filterMap]
      all_goals decide
    rw [hlist]
    exact List.mem_cons_self _ _
  exact recency_nonneg_of_past_date 31 dfScenario _ hmem 9 (by decide)
    (by decide)

/-- C9: when a required column is missing the computation reports an error
message and produces no partial output (the `Except.error` result carries no
table), and its result is always either a full table or a reported message,
never an unhandled crash, mirroring the top-level try/except of the source. -/
theorem processFile_error_handling :
    (∀ (now : Int) (t : RawTable),
      (t.hasID = false ∨ t.hasDia = false ∨ t.hasCodigo = false ∨
        t.hasValor = false) →
      ∃ msg, processFile now t = Except.error msg) ∧
    (∀ (now : Int) (t : RawTable),
      (∃ out, processFile now t = Except.ok out) ∨
      (∃ msg, processFile now t = Except.error msg)) := by
  constructor
  · intro now t h
    obtain ⟨i, dd, cc, vv, rows⟩ := t
    cases i <;> cases dd <;> cases cc <;> cases vv <;>
      first
        | exact ⟨_, rfl⟩
        | simp_all
  · intro now t
    obtain ⟨i, dd, cc, vv, rows⟩ := t
    cases i <;> cases dd <;> cases cc <;> cases vv <;>
      first
        | exact Or.inl ⟨_, rfl⟩
        | exact Or.inr ⟨_, rfl⟩

/-- Witness for C9: a file lacking the DiaCompra column is reported as an
error. -/
theorem processFile_error_handling_witness :
    ∃ msg, processFile 0 ⟨true, false, true, true, []⟩ = Except.error msg :=
  processFile_error_handling.1 0 ⟨true, false, true, true, []⟩
    (Or.inr (Or.inl rfl))

end RFV
